import Mathlib

/-!
Verification of the list-numbering subsystem of the python-docx fork
(`docx/oxml/numbering.py`).  The Python source is shallowly embedded:
XML element classes become structures, element/attribute access on a
possibly absent object (Python `AttributeError`) becomes `Option` /
an explicit error value, and the numbering-resolution engine
`CT_Numbering.get_num_for_p` becomes a fuelled executable function
returning `Except PyErr (Option String)`.
-/

namespace DocxNumbering

/-- Exceptions that can escape the Python code, as far as the embedding needs
to distinguish them: `attrErr` is `AttributeError` (caught by the
`Paragraph.number` property in `docx/text/paragraph.py`), `keyErr` is
`KeyError` from `num_having_numId` (not caught anywhere on the resolution
path), `otherErr` stands for the remaining exception classes (roman-numeral
range errors, `IndexError`, `ValueError`), also uncaught. -/
inductive PyErr where
  | attrErr
  | keyErr
  | otherErr
deriving Repr, DecidableEq

/-- Value of a `fmt_map` lambda: `'decimal'` returns the Python `int`
unchanged, every other format returns a `str`. -/
inductive PyVal where
  | vint (i : Int)
  | vstr (s : String)
deriving Repr, DecidableEq

/-- Python `str(int)`. -/
def pyIntStr (i : Int) : String :=
  if i < 0 then "-" ++ Nat.repr i.natAbs else Nat.repr i.toNat

/-- Python `str(x)` for a `fmt_map` result (used by f-string interpolation
and by `str(p_num)` in `get_num_for_p`). -/
def PyVal.toStr : PyVal → String
  | .vint i => pyIntStr i
  | .vstr s => s

/-- Python `p_num == 1` where `p_num` is a `fmt_map` result: an `int`
compares by value, a `str` is never equal to `1`. -/
def PyVal.isOne : PyVal → Bool
  | .vint i => i == 1
  | .vstr _ => false

/-- Python `str(None)` versus `str(s)` as used in the f-string of
`get_num_for_p` line 302 (`prev_num` may be `None`). -/
def pyShow : Option String → String
  | none => "None"
  | some s => s

/-- Occurrences of a character in a string (Python `s.count(c)` for a
single-character argument). -/
def pyCountChar (s : String) (c : Char) : Nat :=
  (s.data.filter (fun d => d == c)).length

/-- Worker for Python `str.split(sep)` with a non-empty separator; `fuel`
bounds the recursion (each step consumes at least one character, so
`s.length + 1` fuel always suffices for a non-empty `sep`). -/
def pySplitAux (sep : List Char) : Nat → List Char → List Char → List (List Char)
  | 0, acc, rest => [acc.reverse ++ rest]
  | fuel + 1, acc, s =>
    match s with
    | [] => [acc.reverse]
    | c :: cs =>
      if sep.isPrefixOf s then
        acc.reverse :: pySplitAux sep fuel [] (s.drop sep.length)
      else
        pySplitAux sep fuel (c :: acc) cs

/-- Python `s.split(sep)` for a non-empty `sep` (callers guard emptiness,
mirroring Python's `ValueError: empty separator`). -/
def pySplit (s sep : String) : List String :=
  (pySplitAux sep.data (s.data.length + 1) [] s.data).map String.mk

/-- Python `sep.join(parts)`. -/
def pyJoin (sep : String) (parts : List String) : String :=
  String.mk (List.intercalate sep.data (parts.map String.data))

/-- Does the char start a `%<digit>` regex match (`\d` of `r'%(\d)'`)? -/
def pyIsDigit (c : Char) : Bool :=
  '0' ≤ c && c ≤ '9'

/-- Python `re.sub(r'%(\d)', repl, s)`: replace every non-overlapping
left-to-right occurrence of `%` followed by a digit. -/
def subAllNumPat (repl : List Char) : List Char → List Char
  | [] => []
  | [c] => [c]
  | c1 :: c2 :: rest =>
    if c1 = '%' ∧ pyIsDigit c2 then repl ++ subAllNumPat repl rest
    else c1 :: subAllNumPat repl (c2 :: rest)

/-- Python `re.sub(r'%(\d)', repl, s, 1)`: replace only the first
occurrence. -/
def subFirstNumPat (repl : List Char) : List Char → List Char
  | [] => []
  | [c] => [c]
  | c1 :: c2 :: rest =>
    if c1 = '%' ∧ pyIsDigit c2 then repl ++ rest
    else c1 :: subFirstNumPat repl (c2 :: rest)

/-- String-level wrapper of `subAllNumPat`. -/
def subAllS (repl s : String) : String :=
  String.mk (subAllNumPat repl.data s.data)

/-- String-level wrapper of `subFirstNumPat`. -/
def subFirstS (repl s : String) : String :=
  String.mk (subFirstNumPat repl.data s.data)

/-- Digits of a decimal literal, most significant first. -/
def digitsVal : List Char → Option Nat → Option Nat
  | [], acc => acc
  | c :: cs, acc =>
    if pyIsDigit c then digitsVal cs (some ((acc.getD 0) * 10 + (c.toNat - '0'.toNat)))
    else none

/-- Python `int(s)` on a string: optional surrounding spaces, optional
sign, at least one decimal digit; anything else raises `ValueError`
(modelled as `none`). -/
def pyParseInt (s : String) : Option Int :=
  let t := (s.data.dropWhile (fun c => c == ' ')).reverse.dropWhile (fun c => c == ' ') |>.reverse
  match t with
  | '-' :: ds => (digitsVal ds none).map (fun n => -(n : Int))
  | '+' :: ds => (digitsVal ds none).map (fun n => (n : Int))
  | ds => (digitsVal ds none).map (fun n => (n : Int))

/-! ## Data model: the XML element classes of `docx/oxml/numbering.py` -/

/-- A `<w:numPr>` element (`CT_NumPr`): optional `<w:ilvl>` and `<w:numId>`
children, each carrying a required decimal `w:val`. -/
structure CT_NumPr where
  ilvl : Option Nat
  numId : Option Nat
deriving Repr, DecidableEq

/-- Paragraph properties `<w:pPr>`: the optional `<w:pStyle>` (its `w:val`)
and optional `<w:numPr>` child, the parts read by the numbering engine. -/
structure CT_PPr where
  pStyle : Option String
  numPr : Option CT_NumPr
deriving Repr, DecidableEq

/-- A `<w:p>` paragraph element: the optional `<w:pPr>` child. -/
structure CT_P where
  pPr : Option CT_PPr
deriving Repr, DecidableEq

/-- A `<w:lvlOverride>` element (`CT_NumLvl`): required `w:ilvl` attribute
and optional `<w:startOverride>` child (its `w:val`). -/
structure CT_NumLvl where
  ilvl : Nat
  startOverride : Option Int
deriving Repr, DecidableEq

/-- A `<w:num>` element (`CT_Num`): required `w:numId` attribute, the
`w:val` of its `<w:abstractNumId>` child, and its `<w:lvlOverride>`
children in document order. -/
structure CT_Num where
  numId : Nat
  abstractNumId : Nat
  lvlOverride_lst : List CT_NumLvl
deriving Repr, DecidableEq

/-- A `<w:lvl>` element (`CT_Lvl`): required `w:ilvl` attribute and the
optional children read by the engine (`w:start`, `w:numFmt`, `w:lvlText`,
`w:pStyle`, `w:suff`), each reduced to its `w:val`. -/
structure CT_Lvl where
  ilvl : Nat
  start : Option Int
  numFmt : Option String
  lvlText : Option String
  pStyle : Option String
  suff : Option String
deriving Repr, DecidableEq

/-- A `<w:abstractNum>` element (`CT_AbstractNum`): required
`w:abstractNumId` attribute and `<w:lvl>` children in document order. -/
structure CT_AbstractNum where
  abstractNumId : Nat
  lvl_lst : List CT_Lvl
deriving Repr, DecidableEq

/-- The `<w:numbering>` root element (`CT_Numbering`): `<w:abstractNum>`
and `<w:num>` children in document order. -/
structure CT_Numbering where
  abstractNum_lst : List CT_AbstractNum
  num_lst : List CT_Num
deriving Repr, DecidableEq

/-- One entry of the styles cache consulted by `get_numPr`: a style id with
the numbering properties the style (chain) contributes, if any. -/
structure StyleDef where
  styleId : String
  numPr : Option CT_NumPr
deriving Repr, DecidableEq

/-- The styles cache passed into `get_num_for_p` as `styles_cache`. -/
abbrev StylesCache := List StyleDef

/-! ## Numeral formatting: `CT_Numbering.fmt_map` -/

/-- The `'lowerLetter'` lambda of `fmt_map`:
`chr(96 + (num % 26 if num % 26 != 0 else 26)) * math.ceil(num / 26)`.
Python `%` on a positive modulus and `//`-style flooring agree with
`Int.emod` / `Int.ediv`; `math.ceil(num / 26)` is `(num + 25) // 26`, and
repeating a character a non-positive number of times gives `""`. -/
def pyLowerLetter (num : Int) : String :=
  String.mk (List.replicate ((num + 25) / 26).toNat
    (Char.ofNat (96 + (if num % 26 = 0 then (26 : Int) else num % 26).toNat)))

/-- The `'upperLetter'` lambda of `fmt_map` (base character `chr(64)`). -/
def pyUpperLetter (num : Int) : String :=
  String.mk (List.replicate ((num + 25) / 26).toNat
    (Char.ofNat (64 + (if num % 26 = 0 then (26 : Int) else num % 26).toNat)))

/-- Value-symbol table of the `roman` package's `toRoman`. -/
def romanPairs : List (Nat × String) :=
  [(1000, "M"), (900, "CM"), (500, "D"), (400, "CD"), (100, "C"), (90, "XC"),
   (50, "L"), (40, "XL"), (10, "X"), (9, "IX"), (5, "V"), (4, "IV"), (1, "I")]

/-- Greedy roman-numeral encoder (`roman.toRoman` for `0 < n < 5000`);
`fuel = n` suffices as every step subtracts at least 1. -/
def toRomanAux : Nat → Nat → String
  | 0, _ => ""
  | fuel + 1, n =>
    if n = 0 then ""
    else
      match romanPairs.find? (fun p => p.1 ≤ n) with
      | some pr => pr.2 ++ toRomanAux fuel (n - pr.1)
      | none => ""

/-- The `roman.toRoman` encoding of `n` (callers enforce the package's
`0 < n < 5000` range check). -/
def toRoman (n : Nat) : String :=
  toRomanAux n n

/-- ASCII lowercasing of a roman numeral (Python `str.lower`). -/
def lowerAscii (s : String) : String :=
  String.mk (s.data.map Char.toLower)

/-- Is the format code a key of `fmt_map`? -/
def fmtSupported (code : String) : Bool :=
  decide (code = "lowerLetter") || decide (code = "decimal") ||
  decide (code = "upperLetter") || decide (code = "lowerRoman") ||
  decide (code = "upperRoman") || decide (code = "none")

/-- Python `self.fmt_map[code](num)`: a missing key raises `KeyError`
(caught by `get_num_for_p`, which then returns `None`); the roman lambdas
raise the `roman` package's range error outside `0 < num < 5000`
(uncaught anywhere). -/
def applyFmt (code : String) (num : Int) : Except PyErr PyVal :=
  if code = "lowerLetter" then .ok (.vstr (pyLowerLetter num))
  else if code = "decimal" then .ok (.vint num)
  else if code = "upperLetter" then .ok (.vstr (pyUpperLetter num))
  else if code = "lowerRoman" then
    if 0 < num ∧ num < 5000 then .ok (.vstr (lowerAscii (toRoman num.toNat)))
    else .error .otherErr
  else if code = "upperRoman" then
    if 0 < num ∧ num < 5000 then .ok (.vstr (toRoman num.toNat))
    else .error .otherErr
  else if code = "none" then .ok (.vstr "")
  else .error .keyErr

/-! ## Store lookups -/

/-- `CT_Numbering.num_having_numId`: first `<w:num>` child whose `numId`
attribute matches (the xpath takes the first hit); raises `KeyError` when
absent, modelled as `none`. -/
def num_having_numId (nmb : CT_Numbering) (numId : Nat) : Option CT_Num :=
  nmb.num_lst.find? (fun n => n.numId == numId)

/-- `CT_Numbering.get_abstractNum`: resolve a paragraph `numId` to the
`<w:abstractNum>` it references; `None` when the `<w:num>` is missing
(`KeyError` caught) or no `<w:abstractNum>` carries the referenced id
(loop falls through). -/
def get_abstractNum (nmb : CT_Numbering) (numId : Nat) : Option CT_AbstractNum :=
  match num_having_numId nmb numId with
  | none => none
  | some numEl => nmb.abstractNum_lst.find? (fun a => a.abstractNumId == numEl.abstractNumId)

/-- `CT_AbstractNum.get_lvl`: first `<w:lvl>` child with the given `ilvl`,
`None` when the loop falls through. -/
def CT_AbstractNum.get_lvl (an : CT_AbstractNum) (ilvl : Nat) : Option CT_Lvl :=
  an.lvl_lst.find? (fun l => l.ilvl == ilvl)

/-- The `linked_styles` set of `get_num_for_p` (lines 264-265): the
`w:pStyle/@w:val` of every `<w:lvl>` sibling preceding the first `<w:lvl>`
with the target `ilvl` inside the abstract definition. -/
def linkedStylesOf (an : CT_AbstractNum) (ilvl : Nat) : List String :=
  (an.lvl_lst.takeWhile (fun l => !(l.ilvl == ilvl))).filterMap CT_Lvl.pStyle

/-- The closure `get_start_override` of `get_num_for_p` (lines 251-256):
look up `<w:num w:numId=forNumId>` (a miss raises `KeyError`), return the
`startOverride` value of the first `<w:lvlOverride>` whose `ilvl` matches
the target paragraph's level (a matching override without a
`<w:startOverride>` child raises `AttributeError`), else `0`. -/
def get_start_override (nmb : CT_Numbering) (ilvlT : Nat) (forNumId : Nat) : Except PyErr Int :=
  match num_having_numId nmb forNumId with
  | none => .error .keyErr
  | some w_num =>
    match w_num.lvlOverride_lst.find? (fun lo => lo.ilvl == ilvlT) with
    | none => .ok 0
    | some lo =>
      match lo.startOverride with
      | none => .error .attrErr
      | some v => .ok v

/-- `CT_Numbering._next_numId` (lines 337-349): the first integer in
`range(1, len(num_ids) + 2)` not among the existing `w:numId` values; if
the loop never breaks, `num` is left at the last candidate. -/
def next_numId (nmb : CT_Numbering) : Nat :=
  let num_ids := nmb.num_lst.map CT_Num.numId
  ((List.range' 1 (num_ids.length + 1)).find?
      (fun n => decide (n ∉ num_ids))).getD (num_ids.length + 1)

/-- `CT_Numbering.add_num` (lines 121-128): build `CT_Num.new(next_numId,
abstractNum_id)` and insert it after the existing `<w:num>` elements;
returns the updated store and the new element. -/
def add_num (nmb : CT_Numbering) (abstractNum_id : Nat) : CT_Numbering × CT_Num :=
  let num : CT_Num := ⟨next_numId nmb, abstractNum_id, []⟩
  ({ nmb with num_lst := nmb.num_lst ++ [num] }, num)

/-- `CT_Lvl.suffix` (lines 406-414): a present `<w:suff>` renders as a
single space when its `w:val` is `"space"` and as the empty string for any
other value; an absent `<w:suff>` renders as a tab. -/
def CT_Lvl.suffixStr (l : CT_Lvl) : String :=
  match l.suff with
  | some v => if v = "space" then " " else ""
  | none => "\t"

/-! ## Paragraph-side membership lookup -/

/-- Modelled from the spec: `CT_PPr.get_numPr(styles_cache)` lives in
`docx/oxml/text/parfmt.py`, which is not among the provided sources.  Per
the spec (§4.3 Step 1): if the paragraph carries direct numbering
properties use them, else consult the paragraph's effective style for
inherited numbering properties; if neither yields numbering properties the
result is `None`. -/
def get_numPr (styles : StylesCache) (ppr : CT_PPr) : Option CT_NumPr :=
  match ppr.numPr with
  | some np => some np
  | none =>
    match ppr.pStyle with
    | some sid =>
      match styles.find? (fun sd => sd.styleId == sid) with
      | some sd => sd.numPr
      | none => none
    | none => none

/-- The inner helper `get_ilvl_and_numId` of `get_num_for_p` (lines
167-174): `paragraph.pPr.get_numPr(styles_cache)` followed by reads of
`ilvl` (defaulting to 0 when the child is absent) and `numId.val`; any
`None` on the access path raises `AttributeError`, modelled as `none`. -/
def getIlvlAndNumId (styles : StylesCache) (p : CT_P) : Option (Nat × Nat) :=
  match p.pPr with
  | none => none
  | some ppr =>
    match get_numPr styles ppr with
    | none => none
    | some np =>
      match np.numId with
      | none => none
      | some nid => some (np.ilvl.getD 0, nid)

/-- The target paragraph's own `pPr.pStyle` (`pStyle` local of the scan
closures); reachable only when `pPr` is present. -/
def pStyleOf (p : CT_P) : Option String :=
  p.pPr.bind CT_PPr.pStyle

/-- The check `p.pPr.numPr is None` of line 200 (direct numbering
properties only, not style-derived). -/
def pDirectNumPrNone (p : CT_P) : Bool :=
  match p.pPr with
  | some ppr => ppr.numPr.isNone
  | none => true

/-! ## Backward sibling scan

`get_preceding_paragraphs_numIds` is a Python generator consumed lazily by
`count_same_numIds`.  The generator's behaviour does not depend on the
consumer, so it is embedded eagerly as the finite list of events it would
produce: each `next()` call pops one event — a yielded `numId`, normal
exhaustion (loop end or `break`, raising `StopIteration`), or an
exception escaping the generator.  Events past the point where the
consumer stops are computed but never observed, matching laziness. -/

/-- One observable step of the sibling-scan generator. -/
inductive GenEvt where
  | yield (numId : Nat)
  | done
  | err (e : PyErr)
deriving Repr, DecidableEq

/-- The closure environment shared by the scan helpers inside
`get_num_for_p`: the numbering part, styles cache, the target paragraph's
`ilvl`, `numId`, the `linked_styles` set, the target's `pPr.pStyle` and
its `pPr.numPr is None` test. -/
structure ScanCtx where
  nmb : CT_Numbering
  styles : StylesCache
  ilvlT : Nat
  numIdT : Nat
  linked : List String
  pStyleT : Option String
  pDirNone : Bool
deriving Repr, DecidableEq

/-- Event list of the generator `get_preceding_paragraphs_numIds` (lines
176-208) over the preceding siblings in reverse document order.  A sibling
whose `ilvl`/`numId` extraction hits a `None` (`AttributeError`) is
skipped, as is one whose `numId` is 0; a strictly shallower sibling of the
same list (or of a linked style) ends the scan; a same-level sibling of
the same list, same style or linked style yields its `numId` and — per
the fall-through to lines 199-206 — may additionally yield a continuation
anchor and stop when the target has no direct `numPr` and shares the
sibling's style. -/
def get_preceding_paragraphs_numIds (sc : ScanCtx) : List CT_P → List GenEvt
  | [] => [.done]
  | prev :: rest =>
    match getIlvlAndNumId sc.styles prev with
    | none => get_preceding_paragraphs_numIds sc rest
    | some (pilvl, pnumId) =>
      if pnumId = 0 then get_preceding_paragraphs_numIds sc rest
      else
        let prevStyle : Option String := prev.pPr.bind CT_PPr.pStyle
        let break192 : Bool :=
          decide (pilvl < sc.ilvlT) &&
            (pnumId == sc.numIdT ||
              (match prevStyle with
               | some pv => sc.linked.contains pv
               | none => false))
        if break192 then [.done]
        else
          let after199 : List GenEvt :=
            if pilvl = sc.ilvlT ∧ pnumId ≠ sc.numIdT then
              if sc.pDirNone then
                match prevStyle, sc.pStyleT with
                | some pv, some sv =>
                  if pv = sv then
                    match get_start_override sc.nmb sc.ilvlT pnumId with
                    | .error .attrErr => get_preceding_paragraphs_numIds sc rest
                    | .error e => [.err e]
                    | .ok so =>
                      if so > 1 then [.yield pnumId, .done]
                      else [.yield sc.numIdT, .done]
                  else get_preceding_paragraphs_numIds sc rest
                | _, _ => get_preceding_paragraphs_numIds sc rest
              else get_preceding_paragraphs_numIds sc rest
            else get_preceding_paragraphs_numIds sc rest
          if pilvl = sc.ilvlT then
            if pnumId = sc.numIdT then .yield pnumId :: after199
            else
              match sc.pStyleT, prevStyle with
              | some sv, some pv =>
                if sv = pv ∨ sc.linked.contains pv then .yield pnumId :: after199
                else after199
              | _, _ => get_preceding_paragraphs_numIds sc rest
          else after199

/-- The consumer `count_same_numIds` (lines 228-249) walking the generator
events: a yield equal to the target `numId` increments the count; a
different yield consults its start override — `AttributeError` there is
caught and the scan continues, an override greater than 1 is added in bulk
and the loop breaks, otherwise one extra `next()` is drawn (a matching
value counting 1) and the loop breaks. -/
def count_same_numIds (sc : ScanCtx) : List GenEvt → Int → Except PyErr Int
  | [], num => .ok num
  | .done :: _, num => .ok num
  | .err e :: _, _num => .error e
  | .yield y :: rest, num =>
    if sc.numIdT = y then count_same_numIds sc rest (num + 1)
    else
      match get_start_override sc.nmb sc.ilvlT y with
      | .error .attrErr => count_same_numIds sc rest num
      | .error e => .error e
      | .ok so =>
        if so > 1 then .ok (num + so)
        else
          match rest with
          | [] => .ok num
          | .done :: _ => .ok num
          | .err e :: _ => .error e
          | .yield y2 :: _ => .ok (if y2 = sc.numIdT then num + 1 else num)

/-- The helper `get_preceding_paragraph` (lines 210-226) over the
preceding siblings paired with their body indices: first sibling at the
same or a shallower level carrying the same paragraph style; siblings with
broken numbering structure, `numId` 0, or a failing style comparison
(either style absent raises `AttributeError`) are skipped. -/
def get_preceding_paragraph (styles : StylesCache) (pIlvl : Nat) (pStyleT : Option String) :
    List (Nat × CT_P) → Option (Nat × Nat × Nat)
  | [] => none
  | (j, prev) :: rest =>
    match getIlvlAndNumId styles prev with
    | none => get_preceding_paragraph styles pIlvl pStyleT rest
    | some (pilvl, pnumId) =>
      if pnumId = 0 then get_preceding_paragraph styles pIlvl pStyleT rest
      else
        if pilvl ≤ pIlvl then
          match pStyleT, prev.pPr.bind CT_PPr.pStyle with
          | some sv, some pv =>
            if sv = pv then some (j, pilvl, pnumId)
            else get_preceding_paragraph styles pIlvl pStyleT rest
          | _, _ => get_preceding_paragraph styles pIlvl pStyleT rest
        else get_preceding_paragraph styles pIlvl pStyleT rest

/-- The paragraph at body index `i` (`p.itersiblings` iterates the body's
children; an out-of-range index never occurs on real calls and stands for
an empty paragraph). -/
def targetPara (body : List CT_P) (i : Nat) : CT_P :=
  (body[i]?).getD ⟨none⟩

/-- Preceding siblings of the paragraph at index `i`, nearest first
(`itersiblings(preceding=True)`). -/
def precParas (body : List CT_P) (i : Nat) : List CT_P :=
  (List.range i).reverse.map (targetPara body)

/-- Preceding siblings paired with their body indices, nearest first. -/
def precPairs (body : List CT_P) (i : Nat) : List (Nat × CT_P) :=
  (List.range i).reverse.map (fun j => (j, targetPara body j))

/-- Scan environment: the closure state captured at lines 258-276 of
`get_num_for_p` for the paragraph at index `i`. -/
def scanCtxOf (nmb : CT_Numbering) (styles : StylesCache) (body : List CT_P) (i : Nat)
    (ilvl numId : Nat) (an : CT_AbstractNum) : ScanCtx :=
  ⟨nmb, styles, ilvl, numId, linkedStylesOf an ilvl,
   pStyleOf (targetPara body i), pDirectNumPrNone (targetPara body i)⟩

/-- The `p_num` seed of line 274: `startOverride if startOverride else
start`, where a missing `<w:start>` defaults to 0 (lines 268-272). -/
def startBase (lvl : CT_Lvl) (so : Int) : Int :=
  if so ≠ 0 then so else lvl.start.getD 0

/-! ## The resolver `CT_Numbering.get_num_for_p` -/

/-- Fuelled body of `get_num_for_p` (lines 162-324) for the paragraph at
body index `i`.  The single recursive call (line 295) targets a preceding
sibling, whose index is strictly smaller, so calling with `fuel = i + 1`
always suffices; the fuel-exhaustion branch is unreachable on such calls.
`Except.error` carries an exception escaping `get_num_for_p`;
`.ok none` is an explicit `return None`. -/
def get_num_for_p_fuel (nmb : CT_Numbering) (styles : StylesCache) (body : List CT_P) :
    Nat → Nat → Bool → Except PyErr (Option String)
  | 0, _, _ => .error .otherErr
  | fuel + 1, i, appendSuffix =>
    let p := targetPara body i
    match getIlvlAndNumId styles p with
    | none => .error .attrErr
    | some (ilvl, numId) =>
      match get_abstractNum nmb numId with
      | none => .ok none
      | some an =>
        match an.get_lvl ilvl with
        | none => .error .attrErr
        | some lvl =>
          let sc := scanCtxOf nmb styles body i ilvl numId an
          match get_start_override nmb ilvl numId with
          | .error e => .error e
          | .ok so =>
            match count_same_numIds sc
                (get_preceding_paragraphs_numIds sc (precParas body i)) (startBase lvl so) with
            | .error e => .error e
            | .ok pNum =>
              match lvl.numFmt with
              | none => .error .attrErr
              | some code =>
                match applyFmt code pNum with
                | .error .keyErr => .ok none
                | .error e => .error e
                | .ok v =>
                  let suffix := if appendSuffix then lvl.suffixStr else ""
                  match lvl.lvlText with
                  | none => .error .attrErr
                  | some lvlText =>
                    if pyCountChar lvlText '%' > 1 then
                      match get_preceding_paragraph styles ilvl (pStyleOf p) (precPairs body i) with
                      | none => .ok (some (subAllS v.toStr lvlText ++ suffix))
                      | some (j, prevIlvl, _) =>
                        match get_num_for_p_fuel nmb styles body fuel j false with
                        | .error e => .error e
                        | .ok prevNum =>
                          let parts := pySplit (subAllS "$" lvlText) "$"
                          let preT := parts.headD ""
                          let afterT := parts.getLastD ""
                          if prevIlvl < ilvl then
                            .ok (some (pyShow prevNum ++ preT ++ v.toStr ++ afterT ++ suffix))
                          else if afterT.length > 0 then
                            match prevNum with
                            | none => .error .attrErr
                            | some pn =>
                              let l := pySplit pn afterT
                              if l.length ≥ 2 then
                                .ok (some (pyJoin afterT
                                  (l.set (l.length - 2) (preT ++ v.toStr)) ++ suffix))
                              else .error .otherErr
                          else if preT.length > 0 then
                            match prevNum with
                            | none => .error .attrErr
                            | some pn =>
                              let l := pySplit pn preT
                              .ok (some (pyJoin preT
                                (l.set (l.length - 1) (v.toStr ++ afterT)) ++ suffix))
                          else
                            match parts[1]? with
                            | none => .error .otherErr
                            | some midT =>
                              match prevNum with
                              | none => .error .attrErr
                              | some pn =>
                                if midT.length = 0 then .error .otherErr
                                else
                                  let l := pySplit pn midT
                                  let l1 := l.set (l.length - 1) v.toStr
                                  if v.isOne then
                                    match pyParseInt (l1.headD "") with
                                    | none => .error .otherErr
                                    | some k =>
                                      .ok (some (pyJoin midT
                                        (l1.set 0 (pyIntStr (k + 1))) ++ suffix))
                                  else .ok (some (pyJoin midT l1 ++ suffix))
                    else
                      .ok (some (subFirstS v.toStr lvlText ++ suffix))

/-- `CT_Numbering.get_num_for_p(p, styles_cache, append_suffix)` for the
paragraph at body index `i`. -/
def get_num_for_p (nmb : CT_Numbering) (styles : StylesCache) (body : List CT_P)
    (i : Nat) (appendSuffix : Bool) : Except PyErr (Option String) :=
  get_num_for_p_fuel nmb styles body (i + 1) i appendSuffix

/-- The `Paragraph.number` property (`docx/text/paragraph.py` lines
307-320): calls `get_num_for_p` with suffix appended and converts an
escaping `AttributeError` (or `NotImplementedError`) into `None`; other
exceptions propagate to the caller. -/
def paragraph_number (nmb : CT_Numbering) (styles : StylesCache) (body : List CT_P)
    (i : Nat) : Except PyErr (Option String) :=
  match get_num_for_p nmb styles body i true with
  | .ok r => .ok r
  | .error .attrErr => .ok none
  | .error e => .error e

/-! ## The mutator `CT_Numbering.set_li_lvl` -/

/-- Chain `prev_p.pPr.numPr.numId` of the guard at lines 358-361. -/
def prevDirectNumId (prev : Option CT_P) : Option Nat :=
  ((prev.bind CT_P.pPr).bind CT_PPr.numPr).bind CT_NumPr.numId

/-- Chain `prev_p.pPr.numPr.ilvl` read at line 373. -/
def prevDirectIlvl (prev : Option CT_P) : Option Nat :=
  ((prev.bind CT_P.pPr).bind CT_PPr.numPr).bind CT_NumPr.ilvl

/-- Write `(numId, ilvl)` onto the paragraph's direct numbering
properties: `para_el.get_or_add_pPr().get_or_add_numPr()` followed by the
two value assignments (lines 375-376). -/
def writeNumPr (para : CT_P) (n : Nat) (ilvl : Nat) : CT_P :=
  let ppr := para.pPr.getD ⟨none, none⟩
  ⟨some { ppr with numPr := some ⟨some ilvl, some n⟩ }⟩

/-- New-list branch of `set_li_lvl` (lines 362-370): resolve the
paragraph's natural numbering via `get_numPr`, find the referenced
`<w:num>`, allocate a fresh `<w:num>` for the same abstract definition via
`add_num`, and attach `<w:lvlOverride w:ilvl=ilvl><w:startOverride
w:val=1>` to the newly inserted element. -/
def set_li_lvl_new (nmb : CT_Numbering) (styles : StylesCache) (para : CT_P) (ilvl : Nat) :
    Except PyErr (CT_Numbering × CT_P) :=
  match para.pPr with
  | none => .error .attrErr
  | some ppr =>
    match get_numPr styles ppr with
    | none => .error .attrErr
    | some np =>
      match np.numId with
      | none => .error .attrErr
      | some numId =>
        match num_having_numId nmb numId with
        | none => .error .keyErr
        | some numEl =>
          let pr := add_num nmb numEl.abstractNumId
          let newNum := { pr.2 with lvlOverride_lst := pr.2.lvlOverride_lst ++ [⟨ilvl, some 1⟩] }
          .ok ({ pr.1 with num_lst := pr.1.num_lst.dropLast ++ [newNum] },
               writeNumPr para pr.2.numId ilvl)

/-- `CT_Numbering.set_li_lvl(para_el, styles, prev_p, ilvl)` (lines
351-376): when the predecessor chain `prev_p.pPr.numPr.numId` is broken, a
new list is started (with `ilvl` defaulting to 0); otherwise the
predecessor's `numId` — and, when `ilvl` is not given, its `ilvl` — are
copied onto the paragraph's direct numbering properties. -/
def set_li_lvl (nmb : CT_Numbering) (styles : StylesCache) (para : CT_P)
    (prev : Option CT_P) (ilvlArg : Option Nat) : Except PyErr (CT_Numbering × CT_P) :=
  match prevDirectNumId prev with
  | none => set_li_lvl_new nmb styles para (ilvlArg.getD 0)
  | some n =>
    match ilvlArg with
    | some l => .ok (nmb, writeNumPr para n l)
    | none =>
      match prevDirectIlvl prev with
      | none => .error .attrErr
      | some l => .ok (nmb, writeNumPr para n l)

/-! ## Spec-side definition for the letter formats (claim C2) -/

/-- Bijective base-26 digits of `v`, least significant last, exactly as the
spec words it: repeatedly take `(value - 1) mod 26` as the next letter from
the right, then `value := (value - 1) div 26`, until `value = 0`.
`fuel = v` suffices since `(v - 1) / 26 < v` for `v ≥ 1`. -/
def bijBase26Aux (base : Nat) : Nat → Nat → List Char
  | 0, _ => []
  | fuel + 1, v =>
    if v = 0 then []
    else bijBase26Aux base fuel ((v - 1) / 26) ++ [Char.ofNat (base + (v - 1) % 26)]

/-- The spec's bijective base-26 lower-letter encoding (`1 → "a"`,
`26 → "z"`, `27 → "aa"`, `28 → "ab"`, `52 → "az"`, `53 → "ba"`). -/
def specBijLowerLetter (v : Nat) : String :=
  String.mk (bijBase26Aux 97 v v)

/-! ## Concrete scenarios used by the claim theorems and witnesses -/

/-- Level 0 of scenario A: `start=1`, decimal, template `"%1."`, no
`<w:suff>` (tab suffix). -/
def c1Lvl0 : CT_Lvl := ⟨0, some 1, some "decimal", some "%1.", none, none⟩

/-- Scenario A store: list instance 5 (no overrides) referencing abstract
definition 50. -/
def c1Nmb : CT_Numbering := ⟨[⟨50, [c1Lvl0]⟩], [⟨5, 50, []⟩]⟩

/-- Scenario A paragraph: direct `numId=5`, `ilvl=0`. -/
def c1P : CT_P := ⟨some ⟨none, some ⟨some 0, some 5⟩⟩⟩

/-- Scenario A body: three consecutive sibling paragraphs. -/
def c1Body : List CT_P := [c1P, c1P, c1P]

/-- Scenario B store: abstract definition 50 with level 0 (`"%1."`) and
level 1 (`"%1.%2."`, explicit `<w:suff w:val="none">`). -/
def c5Nmb : CT_Numbering :=
  ⟨[⟨50, [⟨0, some 1, some "decimal", some "%1.", none, none⟩,
          ⟨1, some 1, some "decimal", some "%1.%2.", none, some "none"⟩]⟩],
   [⟨5, 50, []⟩]⟩

/-- Scenario B body: a level-0 paragraph followed by a level-1 paragraph,
both of style `"S"` and list 5. -/
def c5Body : List CT_P :=
  [⟨some ⟨some "S", some ⟨some 0, some 5⟩⟩⟩,
   ⟨some ⟨some "S", some ⟨some 1, some 5⟩⟩⟩]

/-- Witness scenario for C4: the single level carries the unrecognized
format code `"bullet"`. -/
def c4Nmb : CT_Numbering :=
  ⟨[⟨50, [⟨0, some 1, some "bullet", some "%1.", none, none⟩]⟩], [⟨5, 50, []⟩]⟩

/-- Witness body for C4. -/
def c4Body : List CT_P := [⟨some ⟨none, some ⟨some 0, some 5⟩⟩⟩]

/-- Witness store for C8: existing list-instance ids {1, 3}. -/
def c8Nmb : CT_Numbering := ⟨[], [⟨1, 9, []⟩, ⟨3, 9, []⟩]⟩

/-- Witness store for C7's new-list branch: one list instance with id 5
referencing abstract definition 50. -/
def c7Nmb : CT_Numbering := ⟨[], [⟨5, 50, []⟩]⟩

/-- Witness paragraph for C7: direct `numPr` with `numId=5`. -/
def c7Para : CT_P := ⟨some ⟨none, some ⟨some 0, some 5⟩⟩⟩

/-- Witness predecessor for C7's continue branch: direct `numId=4`,
`ilvl=2`. -/
def c7Prev : CT_P := ⟨some ⟨none, some ⟨some 2, some 4⟩⟩⟩

/-! ## Helper lemmas -/

/-- A hit of the first-gap search over a consecutive candidate range is
outside `ids` while every smaller candidate is inside. -/
theorem findGap_some (ids : List Nat) :
    ∀ (len a n : Nat),
      (List.range' a len).find? (fun k => decide (k ∉ ids)) = some n →
      n ∉ ids ∧ a ≤ n ∧ ∀ m, a ≤ m → m < n → m ∈ ids := by
  intro len
  induction len with
  | zero => intro a n h; simp at h
  | succ L ih =>
    intro a n h
    rw [List.range'_succ, List.find?_cons] at h
    by_cases ha : a ∈ ids
    · have hdec : decide (a ∉ ids) = false := by simp [ha]
      rw [hdec] at h
      obtain ⟨h1, h2, h3⟩ := ih (a + 1) n h
      refine ⟨h1, by omega, fun m hm1 hm2 => ?_⟩
      rcases Nat.lt_or_ge m (a + 1) with hlt | hge
      · have hma : m = a := by omega
        rw [hma]; exact ha
      · exact h3 m hge hm2
    · have hdec : decide (a ∉ ids) = true := by simp [ha]
      rw [hdec] at h
      have hn : a = n := by
        have := h
        simpa using this
      subst hn
      exact ⟨ha, Nat.le_refl a, fun m hm1 hm2 => by omega⟩

/-- A missed first-gap search means every candidate of the range is
inside `ids`. -/
theorem findGap_none (ids : List Nat) (a len : Nat)
    (h : (List.range' a len).find? (fun k => decide (k ∉ ids)) = none) :
    ∀ m, a ≤ m → m < a + len → m ∈ ids := by
  intro m hm1 hm2
  have hmem : m ∈ List.range' a len := by
    rw [List.mem_range'_1]; omega
  have := List.find?_eq_none.mp h m hmem
  simpa using this

/-- `_next_numId` always allocates the lowest positive integer unused by
the existing `<w:num>` elements. -/
theorem next_numId_spec (nmb : CT_Numbering) :
    1 ≤ next_numId nmb ∧
    next_numId nmb ∉ nmb.num_lst.map CT_Num.numId ∧
    ∀ m, 1 ≤ m → m < next_numId nmb → m ∈ nmb.num_lst.map CT_Num.numId := by
  have hdef : next_numId nmb =
      (((List.range' 1 ((nmb.num_lst.map CT_Num.numId).length + 1)).find?
        (fun k => decide (k ∉ nmb.num_lst.map CT_Num.numId))).getD
        ((nmb.num_lst.map CT_Num.numId).length + 1)) := rfl
  cases hf : (List.range' 1 ((nmb.num_lst.map CT_Num.numId).length + 1)).find?
      (fun k => decide (k ∉ nmb.num_lst.map CT_Num.numId)) with
  | some k =>
    obtain ⟨h1, h2, h3⟩ := findGap_some (nmb.num_lst.map CT_Num.numId) _ _ _ hf
    rw [hdef, hf]
    exact ⟨h2, h1, h3⟩
  | none =>
    exfalso
    have hall := findGap_none (nmb.num_lst.map CT_Num.numId) 1 _ hf
    have hsub : List.range' 1 ((nmb.num_lst.map CT_Num.numId).length + 1) ⊆
        nmb.num_lst.map CT_Num.numId := by
      intro x hx
      rw [List.mem_range'_1] at hx
      exact hall x hx.1 hx.2
    have hnd : (List.range' 1 ((nmb.num_lst.map CT_Num.numId).length + 1)).Nodup :=
      List.nodup_range' _ _
    have hle := (List.subperm_of_subset hnd hsub).length_le
    simp [List.length_range'] at hle

/-- An unrecognized key of `fmt_map` raises `KeyError`. -/
theorem applyFmt_unsupported (code : String) (n : Int) (h : fmtSupported code = false) :
    applyFmt code n = .error .keyErr := by
  simp only [fmtSupported, Bool.or_eq_false_iff, decide_eq_false_iff_not] at h
  obtain ⟨⟨⟨⟨⟨h1, h2⟩, h3⟩, h4⟩, h5⟩, h6⟩ := h
  simp [applyFmt, h1, h2, h3, h4, h5, h6]

/-! ## Claim theorems -/

/-- C1: for a body of three consecutive sibling paragraphs, each with
direct `numId=5`, `ilvl=0`, where list instance 5 (no overrides) maps to
an abstract definition whose level 0 has start value 1, decimal format,
text template `"%1."` and tab suffix, resolving each paragraph yields, in
document order, `"1."`, `"2."`, `"3."`, each followed by a tab. -/
theorem c1_three_sibling_decimal_paragraphs :
    paragraph_number c1Nmb [] c1Body 0 = .ok (some "1.\t") ∧
    paragraph_number c1Nmb [] c1Body 1 = .ok (some "2.\t") ∧
    paragraph_number c1Nmb [] c1Body 2 = .ok (some "3.\t") :=
  ⟨rfl, rfl, rfl⟩

/-- C2 counterexample: the claim says `lower_letter` is the bijective
base-26 encoding (which maps 28 to `"ab"`), but the code's
`fmt_map['lowerLetter']` maps 28 to `"bb"` (the letter for
`(28-1) mod 26` repeated `ceil(28/26)` times). -/
theorem c2_counterexample :
    specBijLowerLetter 28 = "ab" ∧
    applyFmt "lowerLetter" 28 = .ok (.vstr "bb") ∧
    applyFmt "lowerLetter" 28 ≠ .ok (.vstr (specBijLowerLetter 28)) :=
  ⟨rfl, rfl, by
    intro hc
    rw [show applyFmt "lowerLetter" 28 = Except.ok (PyVal.vstr "bb") from rfl,
      Except.ok.injEq] at hc
    exact absurd hc (by decide)⟩

/-- C2 amended: for every value ≥ 1, `lowerLetter` (resp. `upperLetter`)
produces the single lower-case (resp. upper-case) letter of alphabet index
`(value - 1) mod 26` repeated `ceil(value / 26)` times — so 1→"a",
26→"z", 27→"aa", 28→"bb", 52→"zz", 53→"aaa" — the two formats differing
only in letter case (base codepoint 97 versus 65). -/
theorem c2_letter_format_repeated (n : Int) (_h : 1 ≤ n) :
    applyFmt "lowerLetter" n =
      .ok (.vstr (String.mk (List.replicate ((n + 25) / 26).toNat
        (Char.ofNat (97 + ((n - 1) % 26).toNat))))) ∧
    applyFmt "upperLetter" n =
      .ok (.vstr (String.mk (List.replicate ((n + 25) / 26).toNat
        (Char.ofNat (65 + ((n - 1) % 26).toNat))))) := by
  have key : 96 + (if n % 26 = 0 then (26 : Int) else n % 26).toNat =
      97 + ((n - 1) % 26).toNat := by
    by_cases h26 : n % 26 = 0
    · rw [if_pos h26]; omega
    · rw [if_neg h26]; omega
  have key2 : 64 + (if n % 26 = 0 then (26 : Int) else n % 26).toNat =
      65 + ((n - 1) % 26).toNat := by
    by_cases h26 : n % 26 = 0
    · rw [if_pos h26]; omega
    · rw [if_neg h26]; omega
  have hl : applyFmt "lowerLetter" n = .ok (.vstr (pyLowerLetter n)) := rfl
  have hu : applyFmt "upperLetter" n = .ok (.vstr (pyUpperLetter n)) := rfl
  rw [hl, hu]
  unfold pyLowerLetter pyUpperLetter
  rw [key, key2]
  exact ⟨rfl, rfl⟩

/-- C2 amended witness: the characterization applied at value 28 (the
smallest input where the repeated-letter and bijective encodings part). -/
theorem c2_letter_format_repeated_witness :
    applyFmt "lowerLetter" 28 =
      .ok (.vstr (String.mk (List.replicate ((((28 : Int) + 25) / 26).toNat)
        (Char.ofNat (97 + ((((28 : Int) - 1) % 26).toNat)))))) ∧
    applyFmt "upperLetter" 28 =
      .ok (.vstr (String.mk (List.replicate ((((28 : Int) + 25) / 26).toNat)
        (Char.ofNat (65 + ((((28 : Int) - 1) % 26).toNat)))))) :=
  c2_letter_format_repeated 28 (by norm_num)

/-- C3: once a paragraph's list membership `(numId, ilvl)` is determined,
a store with no matching `<w:num>`, a missing referenced
`<w:abstractNum>`, or an abstract definition without a level record for
`ilvl` makes resolution yield `None` (the paragraph is unnumbered) and no
exception reaches the caller of `Paragraph.number`. -/
theorem c3_missing_definitions_resolve_none
    (nmb : CT_Numbering) (styles : StylesCache) (body : List CT_P) (i ilvl numId : Nat)
    (hmem : getIlvlAndNumId styles (targetPara body i) = some (ilvl, numId))
    (hmiss : num_having_numId nmb numId = none ∨
             get_abstractNum nmb numId = none ∨
             ∃ an, get_abstractNum nmb numId = some an ∧ an.get_lvl ilvl = none) :
    paragraph_number nmb styles body i = .ok none := by
  rcases hmiss with h | h | ⟨an, han, hlvl⟩
  · have habs : get_abstractNum nmb numId = none := by
      simp [get_abstractNum, h]
    simp [paragraph_number, get_num_for_p, get_num_for_p_fuel, hmem, habs]
  · simp [paragraph_number, get_num_for_p, get_num_for_p_fuel, hmem, h]
  · simp [paragraph_number, get_num_for_p, get_num_for_p_fuel, hmem, han, hlvl]

/-- C3 witness: a paragraph referencing `numId=7` against an empty store
resolves to `None` without an escaping exception. -/
theorem c3_missing_definitions_resolve_none_witness :
    paragraph_number ⟨[], []⟩ [] [⟨some ⟨none, some ⟨some 0, some 7⟩⟩⟩] 0 = .ok none :=
  c3_missing_definitions_resolve_none ⟨[], []⟩ [] [⟨some ⟨none, some ⟨some 0, some 7⟩⟩⟩]
    0 0 7 rfl (Or.inl rfl)

/-- C4: a paragraph whose matched level carries a number-format code
outside the supported set resolves to `None` — the `KeyError` from
`fmt_map` is caught inside `get_num_for_p` — rather than raising; the
resolver is a pure function of the store, styles and body, so resolving
one paragraph cannot alter another's resolution. -/
theorem c4_unsupported_format_resolves_none
    (nmb : CT_Numbering) (styles : StylesCache) (body : List CT_P)
    (i ilvl numId : Nat) (an : CT_AbstractNum) (lvl : CT_Lvl) (code : String) (so pn : Int)
    (hmem : getIlvlAndNumId styles (targetPara body i) = some (ilvl, numId))
    (han : get_abstractNum nmb numId = some an)
    (hlvl : an.get_lvl ilvl = some lvl)
    (hso : get_start_override nmb ilvl numId = .ok so)
    (hcnt : count_same_numIds (scanCtxOf nmb styles body i ilvl numId an)
        (get_preceding_paragraphs_numIds (scanCtxOf nmb styles body i ilvl numId an)
          (precParas body i)) (startBase lvl so) = .ok pn)
    (hfmt : lvl.numFmt = some code)
    (hbad : fmtSupported code = false) :
    get_num_for_p nmb styles body i true = .ok none ∧
    paragraph_number nmb styles body i = .ok none := by
  have hk := applyFmt_unsupported code pn hbad
  have h1 : get_num_for_p nmb styles body i true = .ok none := by
    simp [get_num_for_p, get_num_for_p_fuel, hmem, han, hlvl, hso, hcnt, hfmt, hk]
  exact ⟨h1, by simp [paragraph_number, h1]⟩

/-- C4 witness: a level with format code `"bullet"` resolves to `None`. -/
theorem c4_unsupported_format_resolves_none_witness :
    get_num_for_p c4Nmb [] c4Body 0 true = .ok none ∧
    paragraph_number c4Nmb [] c4Body 0 = .ok none :=
  c4_unsupported_format_resolves_none c4Nmb [] c4Body 0 0 5
    ⟨50, [⟨0, some 1, some "bullet", some "%1.", none, none⟩]⟩
    ⟨0, some 1, some "bullet", some "%1.", none, none⟩ "bullet" 0 1
    rfl rfl rfl rfl rfl rfl rfl

/-- C5: with the two-placeholder template `"%1.%2."` at level 1, a target
that is the first paragraph at its depth (count 1) whose nearest preceding
shallower sibling shares its style and resolves to `"1."` renders
`"1.1."`: the inherited `"1."` segment with the fresh segment appended. -/
theorem c5_nested_template_inherits_prefix :
    get_num_for_p c5Nmb [] c5Body 0 false = .ok (some "1.") ∧
    paragraph_number c5Nmb [] c5Body 1 = .ok (some "1.1.") :=
  ⟨rfl, rfl⟩

/-- C6: during the backward sibling scan, a preceding sibling whose
numbering sub-structure is missing — an attribute-access failure while
extracting its `ilvl`/`numId` (`getIlvlAndNumId` yields `none`) — is
skipped by both scan helpers, and the scan continues with the next earlier
sibling; such a sibling never aborts the target's resolution. -/
theorem c6_malformed_sibling_skipped (sc : ScanCtx) (prev : CT_P) (rest : List CT_P)
    (j pIlvl : Nat) (pSty : Option String) (rest' : List (Nat × CT_P))
    (hbad : getIlvlAndNumId sc.styles prev = none) :
    get_preceding_paragraphs_numIds sc (prev :: rest) =
      get_preceding_paragraphs_numIds sc rest ∧
    get_preceding_paragraph sc.styles pIlvl pSty ((j, prev) :: rest') =
      get_preceding_paragraph sc.styles pIlvl pSty rest' := by
  constructor
  · simp [get_preceding_paragraphs_numIds, hbad]
  · simp [get_preceding_paragraph, hbad]

/-- C6 witness: a sibling with no `<w:pPr>` at all is skipped by both
scans. -/
theorem c6_malformed_sibling_skipped_witness :
    get_preceding_paragraphs_numIds ⟨c1Nmb, [], 0, 5, [], none, true⟩ [⟨none⟩, c1P] =
      get_preceding_paragraphs_numIds ⟨c1Nmb, [], 0, 5, [], none, true⟩ [c1P] ∧
    get_preceding_paragraph [] 0 none [(1, ⟨none⟩), (0, c1P)] =
      get_preceding_paragraph [] 0 none [(0, c1P)] :=
  c6_malformed_sibling_skipped ⟨c1Nmb, [], 0, 5, [], none, true⟩ ⟨none⟩ [c1P]
    1 0 none [(0, c1P)] rfl

/-- C7: `set_li_lvl` continues the predecessor's list when the
predecessor carries direct numbering properties with a `numId` — writing
that `numId` and the given level (or, failing that, the predecessor's
level) as the paragraph's direct numbering properties — and otherwise
allocates a fresh list instance for the abstract definition behind the
paragraph's natural numbering, attaches a `startOverride = 1` level
override at the (defaulted) level, and writes the new id and level onto
the paragraph. -/
theorem c7_set_li_lvl_branches
    (nmb : CT_Numbering) (styles : StylesCache) (para : CT_P)
    (prev : Option CT_P) (ilvlArg : Option Nat) :
    (∀ n, prevDirectNumId prev = some n →
      (∀ l, ilvlArg = some l →
        set_li_lvl nmb styles para prev ilvlArg = .ok (nmb, writeNumPr para n l)) ∧
      (∀ l, ilvlArg = none → prevDirectIlvl prev = some l →
        set_li_lvl nmb styles para prev ilvlArg = .ok (nmb, writeNumPr para n l))) ∧
    (∀ ppr np m numEl, prevDirectNumId prev = none →
      para.pPr = some ppr → get_numPr styles ppr = some np → np.numId = some m →
      num_having_numId nmb m = some numEl →
      set_li_lvl nmb styles para prev ilvlArg =
        .ok ({ nmb with num_lst := nmb.num_lst ++
                 [⟨next_numId nmb, numEl.abstractNumId, [⟨ilvlArg.getD 0, some 1⟩]⟩] },
             writeNumPr para (next_numId nmb) (ilvlArg.getD 0))) := by
  constructor
  · intro n hn
    constructor
    · intro l hl
      simp [set_li_lvl, hn, hl]
    · intro l hl hil
      simp [set_li_lvl, hn, hl, hil]
  · intro ppr np m numEl hn hppr hnp hm hnum
    simp [set_li_lvl, hn, set_li_lvl_new, hppr, hnp, hm, hnum, add_num]

/-- C7 witness: the continue branch copies `(numId 4, ilvl 2)` from the
predecessor; the new-list branch against `c7Nmb` (used ids {5}) allocates
id 1, adds the `startOverride = 1` override at level 0, and writes
`(1, 0)` onto the paragraph. -/
theorem c7_set_li_lvl_branches_witness :
    set_li_lvl c7Nmb [] c7Para (some c7Prev) none = .ok (c7Nmb, writeNumPr c7Para 4 2) ∧
    set_li_lvl c7Nmb [] c7Para none none =
      .ok ({ c7Nmb with num_lst := c7Nmb.num_lst ++ [⟨1, 50, [⟨0, some 1⟩]⟩] },
           writeNumPr c7Para 1 0) :=
  ⟨((c7_set_li_lvl_branches c7Nmb [] c7Para (some c7Prev) none).1 4 rfl).2 2 rfl rfl,
   (c7_set_li_lvl_branches c7Nmb [] c7Para none none).2
     ⟨none, some ⟨some 0, some 5⟩⟩ ⟨some 0, some 5⟩ 5 ⟨5, 50, []⟩ rfl rfl rfl rfl rfl⟩

/-- C8: `add_num` allocates as the new instance id the lowest positive
integer not used by any existing `<w:num>` (gap filling), appends a new
instance referencing the given abstract definition id, and preserves
uniqueness of the instance ids. -/
theorem c8_add_num_lowest_gap (nmb : CT_Numbering) (aId : Nat) :
    1 ≤ next_numId nmb ∧
    next_numId nmb ∉ nmb.num_lst.map CT_Num.numId ∧
    (∀ m, 1 ≤ m → m < next_numId nmb → m ∈ nmb.num_lst.map CT_Num.numId) ∧
    (add_num nmb aId).2.numId = next_numId nmb ∧
    (add_num nmb aId).2.abstractNumId = aId ∧
    (add_num nmb aId).1.num_lst = nmb.num_lst ++ [(add_num nmb aId).2] ∧
    (add_num nmb aId).1.abstractNum_lst = nmb.abstractNum_lst ∧
    ((nmb.num_lst.map CT_Num.numId).Nodup →
      ((add_num nmb aId).1.num_lst.map CT_Num.numId).Nodup) := by
  obtain ⟨h1, h2, h3⟩ := next_numId_spec nmb
  refine ⟨h1, h2, h3, rfl, rfl, rfl, rfl, ?_⟩
  intro hnd
  simp only [add_num, List.map_append, List.map_cons, List.map_nil]
  rw [List.nodup_append]
  refine ⟨hnd, List.nodup_singleton _, ?_⟩
  intro x hx hx'
  simp only [List.mem_singleton] at hx'
  subst hx'
  exact h2 hx

/-- C8 witness: with existing ids {1, 3} the next id is 2 (not 4), 2 is
unused, 1 is used, and appending keeps the ids unique. -/
theorem c8_add_num_lowest_gap_witness :
    next_numId c8Nmb = 2 ∧
    next_numId c8Nmb ∉ c8Nmb.num_lst.map CT_Num.numId ∧
    (1 ∈ c8Nmb.num_lst.map CT_Num.numId) ∧
    ((add_num c8Nmb 9).1.num_lst.map CT_Num.numId).Nodup :=
  ⟨rfl, (c8_add_num_lowest_gap c8Nmb 9).2.1,
   (c8_add_num_lowest_gap c8Nmb 9).2.2.1 1 (by decide) (by decide),
   (c8_add_num_lowest_gap c8Nmb 9).2.2.2.2.2.2.2 (by decide)⟩

/-- C9: resolution is embedded as a pure function of the numbering store,
styles cache and paragraph tree — the Python code only reads the
structures it consults — so calling it twice on unmutated inputs returns
identical results. -/
theorem c9_resolution_idempotent (nmb : CT_Numbering) (styles : StylesCache)
    (body : List CT_P) (i : Nat) :
    get_num_for_p nmb styles body i true = get_num_for_p nmb styles body i true ∧
    paragraph_number nmb styles body i = paragraph_number nmb styles body i :=
  ⟨rfl, rfl⟩

/-- C10: a level's rendered suffix is a tab when `<w:suff>` is absent, a
single space when present with `val="space"`, and empty for any other
value — including the explicit values `"tab"` and `"none"`. -/
theorem c10_suffix_rendering (l : CT_Lvl) :
    (l.suff = none → l.suffixStr = "\t") ∧
    (l.suff = some "space" → l.suffixStr = " ") ∧
    (∀ v, l.suff = some v → v ≠ "space" → l.suffixStr = "") := by
  refine ⟨?_, ?_, ?_⟩
  · intro h; simp [CT_Lvl.suffixStr, h]
  · intro h; simp [CT_Lvl.suffixStr, h]
  · intro v h hv; simp [CT_Lvl.suffixStr, h, hv]

/-- C10 witness: the three cases evaluated, including the explicit
`"tab"` and `"none"` values both rendering as the empty string. -/
theorem c10_suffix_rendering_witness :
    CT_Lvl.suffixStr ⟨0, none, none, none, none, none⟩ = "\t" ∧
    CT_Lvl.suffixStr ⟨0, none, none, none, none, some "space"⟩ = " " ∧
    CT_Lvl.suffixStr ⟨0, none, none, none, none, some "tab"⟩ = "" ∧
    CT_Lvl.suffixStr ⟨0, none, none, none, none, some "none"⟩ = "" :=
  ⟨(c10_suffix_rendering _).1 rfl,
   (c10_suffix_rendering _).2.1 rfl,
   (c10_suffix_rendering _).2.2 "tab" rfl (by decide),
   (c10_suffix_rendering _).2.2 "none" rfl (by decide)⟩

end DocxNumbering
